import Mathlib

/-!
Verification model of the Rentelo Breakdown Assist application (`src/app.py`).

The application is a form-driven CRUD tool over a spreadsheet-like tabular
store.  This file gives a shallow embedding of its data-access layer and of
the add / transition handlers, and proves (or refutes) the specified
properties about them.

Embedding conventions:
* Python strings are Lean `String`s; a cell of the tabular store is a string.
* Python floats that occur in this program are exact decimal values; we model
  a float as `PyFloat` (an integer numerator together with a power-of-ten
  exponent) and `str`/`float` as the decimal renderer/parser below.
* Timestamps are `DateTime` records; `strftime("%Y-%m-%d %H:%M:%S%z")` in the
  fixed Asia/Kolkata zone is the 24-character renderer `now_ts`, and pandas
  `to_datetime(errors="coerce")` is the parser `parseTs` (it accepts both the
  `+0530` form written by `now_ts` and the `+05:30` form produced when a
  parsed pandas timestamp is written back with `str`).
* Fallible operations return `Option`.
-/

/-- The character for a decimal digit `d` (models how Python renders digits). -/
def digitChar (d : Nat) : Char := Char.ofNat (48 + d)

/-- The numeric value of a digit character. -/
def charVal (c : Char) : Nat := c.toNat - 48

theorem digitChar_isDigit : ∀ d : Nat, d < 10 → (digitChar d).isDigit = true := by decide

theorem charVal_digitChar : ∀ d : Nat, d < 10 → charVal (digitChar d) = d := by decide

theorem digitChar_ne_dash : ∀ d : Nat, d < 10 → digitChar d ≠ '-' := by decide

theorem digitChar_ne_plus : ∀ d : Nat, d < 10 → digitChar d ≠ '+' := by decide

/-- Decimal digit characters of a natural number, most significant first
(models Python `str` on a nonnegative integer). -/
def natChars (n : Nat) : List Char :=
  if _h : n < 10 then [digitChar n]
  else natChars (n / 10) ++ [digitChar (n % 10)]
termination_by n
decreasing_by exact Nat.div_lt_self (by omega) (by omega)

/-- Python `str` of a nonnegative integer. -/
def natStr (n : Nat) : String := String.mk (natChars n)

/-- The value accumulated by reading a digit list left to right. -/
def digitsVal (l : List Char) : Nat := l.foldl (fun a c => a * 10 + charVal c) 0

theorem natChars_ne_nil (n : Nat) : natChars n ≠ [] := by
  rw [natChars]
  split
  · simp
  · simp

theorem natChars_all_digit (n : Nat) : ∀ c ∈ natChars n, c.isDigit = true := by
  induction n using Nat.strong_induction_on with
  | _ n ih =>
    rw [natChars]
    split
    · intro c hc
      simp only [List.mem_singleton] at hc
      subst hc
      exact digitChar_isDigit n (by omega)
    · intro c hc
      rcases List.mem_append.mp hc with h | h
      · exact ih (n / 10) (Nat.div_lt_self (by omega) (by omega)) c h
      · simp only [List.mem_singleton] at h
        subst h
        exact digitChar_isDigit _ (Nat.mod_lt _ (by omega))

theorem natChars_head (n : Nat) :
    ∃ d rest, natChars n = digitChar d :: rest ∧ d < 10 := by
  induction n using Nat.strong_induction_on with
  | _ n ih =>
    rw [natChars]
    split
    · exact ⟨n, [], rfl, by omega⟩
    · obtain ⟨d, rest, hd, hlt⟩ := ih (n / 10) (Nat.div_lt_self (by omega) (by omega))
      exact ⟨d, rest ++ [digitChar (n % 10)], by rw [hd]; rfl, hlt⟩

theorem foldl_natChars (n : Nat) :
    ∀ a : Nat, (natChars n).foldl (fun a c => a * 10 + charVal c) a
      = a * 10 ^ (natChars n).length + n := by
  induction n using Nat.strong_induction_on with
  | _ n ih =>
    intro a
    rw [natChars]
    split
    · simp [charVal_digitChar n (by omega)]
    · rw [List.foldl_append, ih (n / 10) (Nat.div_lt_self (by omega) (by omega)),
        List.length_append]
      simp only [List.foldl_cons, List.foldl_nil, List.length_cons, List.length_nil]
      rw [charVal_digitChar _ (Nat.mod_lt _ (by omega))]
      have h10 : 10 ^ ((natChars (n / 10)).length + (0 + 1))
          = 10 ^ (natChars (n / 10)).length * 10 := by ring
      rw [h10]
      have := Nat.div_add_mod n 10
      ring_nf
      omega

theorem digitsVal_natChars (n : Nat) : digitsVal (natChars n) = n := by
  have := foldl_natChars n 0
  simpa [digitsVal] using this

/-- Exactly `k` decimal digit characters of `m` (zero-padded), most
significant first; models the fractional part of Python float rendering. -/
def padDigits : Nat → Nat → List Char
  | 0, _ => []
  | k + 1, m => padDigits k (m / 10) ++ [digitChar (m % 10)]

theorem padDigits_length (k m : Nat) : (padDigits k m).length = k := by
  induction k generalizing m with
  | zero => rfl
  | succ k ih => simp [padDigits, ih]

theorem padDigits_all_digit (k m : Nat) : ∀ c ∈ padDigits k m, c.isDigit = true := by
  induction k generalizing m with
  | zero => simp [padDigits]
  | succ k ih =>
    intro c hc
    rcases List.mem_append.mp hc with h | h
    · exact ih _ c h
    · simp only [List.mem_singleton] at h
      subst h
      exact digitChar_isDigit _ (Nat.mod_lt _ (by omega))

theorem foldl_padDigits (k : Nat) :
    ∀ m a : Nat, m < 10 ^ k →
      (padDigits k m).foldl (fun a c => a * 10 + charVal c) a = a * 10 ^ k + m := by
  induction k with
  | zero =>
    intro m a hm
    simp only [pow_zero, Nat.lt_one_iff] at hm
    subst hm
    simp [padDigits]
  | succ k ih =>
    intro m a hm
    have hdiv : m / 10 < 10 ^ k := by
      rw [Nat.div_lt_iff_lt_mul (by omega)]
      calc m < 10 ^ (k + 1) := hm
        _ = 10 ^ k * 10 := by ring
    rw [padDigits, List.foldl_append, ih _ a hdiv]
    simp only [List.foldl_cons, List.foldl_nil]
    rw [charVal_digitChar _ (Nat.mod_lt _ (by omega))]
    have := Nat.div_add_mod m 10
    have h10 : 10 ^ (k + 1) = 10 ^ k * 10 := by ring
    rw [h10]
    ring_nf
    omega

theorem digitsVal_padDigits (k m : Nat) (hm : m < 10 ^ k) :
    digitsVal (padDigits k m) = m := by
  have := foldl_padDigits k m 0 hm
  simpa [digitsVal] using this

theorem takeWhile_append_all {p : Char → Bool} :
    ∀ l r : List Char, (∀ c ∈ l, p c = true) → (l ++ r).takeWhile p = l ++ r.takeWhile p := by
  intro l
  induction l with
  | nil => intro r _; rfl
  | cons c cs ih =>
    intro r h
    have hc : p c = true := h c (by simp)
    simp only [List.cons_append, List.takeWhile_cons_of_pos hc]
    rw [ih r (fun x hx => h x (by simp [hx]))]

theorem dropWhile_append_all {p : Char → Bool} :
    ∀ l r : List Char, (∀ c ∈ l, p c = true) → (l ++ r).dropWhile p = r.dropWhile p := by
  intro l
  induction l with
  | nil => intro r _; rfl
  | cons c cs ih =>
    intro r h
    have hc : p c = true := h c (by simp)
    simp only [List.cons_append, List.dropWhile_cons_of_pos hc]
    exact ih r (fun x hx => h x (by simp [hx]))

theorem takeWhile_all {p : Char → Bool} (l : List Char) (h : ∀ c ∈ l, p c = true) :
    l.takeWhile p = l := by
  have := takeWhile_append_all l [] h
  simpa using this

theorem dropWhile_all {p : Char → Bool} (l : List Char) (h : ∀ c ∈ l, p c = true) :
    l.dropWhile p = [] := by
  have := dropWhile_append_all l [] h
  simpa using this

/-- A Python float value as it occurs in this program: the exact decimal value
`num / 10 ^ exp`.  Actual Python floats are binary; every float this program
produces originates from a short decimal literal, and we model it by that
decimal, with `str`/`float` the renderer/parser below. -/
structure PyFloat where
  num : Int
  exp : Nat
deriving DecidableEq

/-- The rational value of a `PyFloat`. -/
def PyFloat.toRat (f : PyFloat) : ℚ := (f.num : ℚ) / (10 : ℚ) ^ f.exp

/-- Model of Python `str` on a float: sign, integer part, decimal point,
fractional part (a lone `0` when the value is integral, as Python prints). -/
def pyFloatStr (f : PyFloat) : String :=
  let n := f.num.natAbs
  let ip := n / 10 ^ f.exp
  let fr := n % 10 ^ f.exp
  let frChars := if f.exp = 0 then [digitChar 0] else padDigits f.exp fr
  String.mk ((if f.num < 0 then ['-'] else []) ++ natChars ip ++ '.' :: frChars)

/-- Parse an unsigned decimal numeral (digits, optionally followed by a point
and more digits); the whole input must be consumed. -/
def pyFloatCore (l : List Char) : Option PyFloat :=
  let d1 := l.takeWhile Char.isDigit
  let r1 := l.dropWhile Char.isDigit
  match r1 with
  | [] => if d1 = [] then none else some ⟨digitsVal d1, 0⟩
  | c :: r2 =>
    if c = '.' then
      let d2 := r2.takeWhile Char.isDigit
      let r3 := r2.dropWhile Char.isDigit
      if r3 = [] ∧ (d1 ≠ [] ∨ d2 ≠ []) then
        some ⟨(digitsVal d1 * 10 ^ d2.length + digitsVal d2 : Nat), d2.length⟩
      else none
    else none

/-- Model of Python `float(s)` on the decimal forms this program feeds it
(optional sign, digits, optional fractional part); returns `none` where
`float` raises `ValueError`. -/
def pyFloat (s : String) : Option PyFloat :=
  match s.toList with
  | [] => none
  | c :: r =>
    if c = '-' then (pyFloatCore r).map (fun f => ⟨-f.num, f.exp⟩)
    else if c = '+' then pyFloatCore r
    else pyFloatCore (c :: r)

theorem pyFloatCore_dec (n : Nat) (k : Nat) :
    pyFloatCore (natChars (n / 10 ^ k) ++ '.' ::
        (if k = 0 then [digitChar 0] else padDigits k (n % 10 ^ k)))
      = some (if k = 0 then ⟨n * 10, 1⟩ else ⟨n, k⟩) := by
  set ip := n / 10 ^ k with hip
  set frChars : List Char := if k = 0 then [digitChar 0] else padDigits k (n % 10 ^ k)
    with hfr
  have hfrdig : ∀ c ∈ frChars, c.isDigit = true := by
    rw [hfr]
    split
    · intro c hc
      simp only [List.mem_singleton] at hc
      subst hc
      exact digitChar_isDigit 0 (by omega)
    · exact padDigits_all_digit _ _
  have hdot : ('.').isDigit = false := by decide
  have htake : (natChars ip ++ '.' :: frChars).takeWhile Char.isDigit = natChars ip := by
    rw [takeWhile_append_all _ _ (natChars_all_digit ip)]
    simp [List.takeWhile_cons_of_neg, hdot]
  have hdrop : (natChars ip ++ '.' :: frChars).dropWhile Char.isDigit = '.' :: frChars := by
    rw [dropWhile_append_all _ _ (natChars_all_digit ip)]
    simp [List.dropWhile_cons_of_neg, hdot]
  simp only [pyFloatCore, htake, hdrop]
  simp only [if_true]
  rw [takeWhile_all frChars hfrdig, dropWhile_all frChars hfrdig]
  rw [if_pos ⟨rfl, Or.inr (by
    rw [hfr]; split
    · simp
    · have := padDigits_length k (n % 10 ^ k)
      intro hnil
      rw [hnil] at this
      simp at this
      omega)⟩]
  rw [digitsVal_natChars]
  rw [hfr]
  split
  · rename_i hk
    subst hk
    simp [digitsVal, charVal_digitChar 0 (by omega), hip]
  · rename_i hk
    rw [digitsVal_padDigits k _ (Nat.mod_lt _ (Nat.pos_pow_of_pos k (by omega))),
      padDigits_length, hip, Nat.div_add_mod']

theorem toList_mk (l : List Char) : (String.mk l).toList = l := rfl

theorem pyFloat_neg_cons (l : List Char) :
    pyFloat (String.mk ('-' :: l)) = (pyFloatCore l).map (fun g => ⟨-g.num, g.exp⟩) := by
  simp [pyFloat, toList_mk]

theorem pyFloat_digit_cons (d : Nat) (hd : d < 10) (l : List Char) :
    pyFloat (String.mk (digitChar d :: l)) = pyFloatCore (digitChar d :: l) := by
  simp [pyFloat, toList_mk, digitChar_ne_dash d hd, digitChar_ne_plus d hd]

/-- Round trip: parsing the rendered form of a float recovers its value
(`float(str(x)) == x` for the decimal values this program handles). -/
theorem pyFloat_val_pyFloatStr (f : PyFloat) :
    (pyFloat (pyFloatStr f)).map PyFloat.toRat = some f.toRat := by
  set n := f.num.natAbs with hn
  set L : List Char := natChars (n / 10 ^ f.exp) ++ '.' ::
      (if f.exp = 0 then [digitChar 0] else padDigits f.exp (n % 10 ^ f.exp)) with hL
  have hdec : pyFloatCore L = some (if f.exp = 0 then ⟨n * 10, 1⟩ else ⟨n, f.exp⟩) :=
    pyFloatCore_dec n f.exp
  by_cases hneg : f.num < 0
  · have hstr : pyFloatStr f = String.mk ('-' :: L) := by
      simp [pyFloatStr, if_pos hneg, hL]
    have hq : ((n : ℚ)) = -(f.num : ℚ) := by
      have : (n : ℤ) = -f.num := by omega
      exact_mod_cast congrArg (fun z : ℤ => (z : ℚ)) this
    rw [hstr, pyFloat_neg_cons, hdec]
    split
    · rename_i hk
      simp only [Option.map_some', Function.comp_apply, PyFloat.toRat, hk]
      push_cast
      rw [hq]
      norm_num
    · simp only [Option.map_some', Function.comp_apply, PyFloat.toRat]
      push_cast
      rw [hq]
      norm_num
  · have hstr : pyFloatStr f = String.mk L := by
      simp [pyFloatStr, if_neg hneg, hL]
    have hq : ((n : ℚ)) = (f.num : ℚ) := by
      have : (n : ℤ) = f.num := by omega
      exact_mod_cast congrArg (fun z : ℤ => (z : ℚ)) this
    obtain ⟨d, rest, hhead, hdlt⟩ := natChars_head (n / 10 ^ f.exp)
    have hL2 : L = digitChar d :: (rest ++ '.' ::
        (if f.exp = 0 then [digitChar 0] else padDigits f.exp (n % 10 ^ f.exp))) := by
      rw [hL, hhead]
      rfl
    rw [hstr, hL2, pyFloat_digit_cons d hdlt, ← hL2, hdec]
    split
    · rename_i hk
      simp only [Option.map_some', PyFloat.toRat, hk]
      push_cast
      rw [hq]
      norm_num
    · simp only [Option.map_some', PyFloat.toRat]
      push_cast
      rw [hq]

/-- A timestamp in the fixed `Asia/Kolkata` zone (the app records every
timestamp in this one zone, so the offset is a constant `+05:30` and is not a
field). -/
structure DateTime where
  year : Nat
  month : Nat
  day : Nat
  hour : Nat
  minute : Nat
  second : Nat
deriving DecidableEq

/-- Field bounds under which the fixed-width renderings are faithful
(Python `datetime` years are at most 9999; the other fields are two digits). -/
def DateTime.WF (t : DateTime) : Prop :=
  t.year < 10000 ∧ t.month < 100 ∧ t.day < 100 ∧ t.hour < 100 ∧ t.minute < 100 ∧
    t.second < 100

instance (t : DateTime) : Decidable t.WF := by
  unfold DateTime.WF
  infer_instance

/-- Model of `datetime.now(INDIA_TZ).strftime("%Y-%m-%d %H:%M:%S%z")`: the
24-character zero-padded rendering with the constant `+0530` offset. -/
def now_ts (t : DateTime) : String :=
  String.mk [digitChar (t.year / 1000 % 10), digitChar (t.year / 100 % 10),
    digitChar (t.year / 10 % 10), digitChar (t.year % 10), '-',
    digitChar (t.month / 10 % 10), digitChar (t.month % 10), '-',
    digitChar (t.day / 10 % 10), digitChar (t.day % 10), ' ',
    digitChar (t.hour / 10 % 10), digitChar (t.hour % 10), ':',
    digitChar (t.minute / 10 % 10), digitChar (t.minute % 10), ':',
    digitChar (t.second / 10 % 10), digitChar (t.second % 10),
    '+', '0', '5', '3', '0']

/-- Model of `str` on a pandas `Timestamp` in this zone: like `now_ts` but the
offset is rendered `+05:30` (25 characters).  This is the form written back to
the store when a loaded row is serialized by the update path. -/
def tsStrPandas (t : DateTime) : String :=
  String.mk [digitChar (t.year / 1000 % 10), digitChar (t.year / 100 % 10),
    digitChar (t.year / 10 % 10), digitChar (t.year % 10), '-',
    digitChar (t.month / 10 % 10), digitChar (t.month % 10), '-',
    digitChar (t.day / 10 % 10), digitChar (t.day % 10), ' ',
    digitChar (t.hour / 10 % 10), digitChar (t.hour % 10), ':',
    digitChar (t.minute / 10 % 10), digitChar (t.minute % 10), ':',
    digitChar (t.second / 10 % 10), digitChar (t.second % 10),
    '+', '0', '5', ':', '3', '0']

/-- The value of a four-digit group. -/
def val4 (a b c d : Char) : Nat :=
  ((charVal a * 10 + charVal b) * 10 + charVal c) * 10 + charVal d

/-- The value of a two-digit group. -/
def val2 (a b : Char) : Nat := charVal a * 10 + charVal b

/-- Model of `pd.to_datetime(s, errors="coerce")` on one cell, for the two
timestamp shapes this application writes (`+0530` from `strftime`, `+05:30`
from pandas `str`); anything else coerces to `NaT`, i.e. `none`. -/
def parseTs (s : String) : Option DateTime :=
  match s.toList with
  | [y1, y2, y3, y4, s1, mo1, mo2, s2, d1, d2, s3, h1, h2, s4, mi1, mi2, s5,
      se1, se2, p1, z1, z2, z3, z4] =>
    if y1.isDigit ∧ y2.isDigit ∧ y3.isDigit ∧ y4.isDigit ∧ mo1.isDigit ∧ mo2.isDigit ∧
        d1.isDigit ∧ d2.isDigit ∧ h1.isDigit ∧ h2.isDigit ∧ mi1.isDigit ∧ mi2.isDigit ∧
        se1.isDigit ∧ se2.isDigit ∧ s1 = '-' ∧ s2 = '-' ∧ s3 = ' ' ∧ s4 = ':' ∧ s5 = ':' ∧
        p1 = '+' ∧ z1 = '0' ∧ z2 = '5' ∧ z3 = '3' ∧ z4 = '0' then
      some ⟨val4 y1 y2 y3 y4, val2 mo1 mo2, val2 d1 d2, val2 h1 h2, val2 mi1 mi2,
        val2 se1 se2⟩
    else none
  | [y1, y2, y3, y4, s1, mo1, mo2, s2, d1, d2, s3, h1, h2, s4, mi1, mi2, s5,
      se1, se2, p1, z1, z2, zc, z3, z4] =>
    if y1.isDigit ∧ y2.isDigit ∧ y3.isDigit ∧ y4.isDigit ∧ mo1.isDigit ∧ mo2.isDigit ∧
        d1.isDigit ∧ d2.isDigit ∧ h1.isDigit ∧ h2.isDigit ∧ mi1.isDigit ∧ mi2.isDigit ∧
        se1.isDigit ∧ se2.isDigit ∧ s1 = '-' ∧ s2 = '-' ∧ s3 = ' ' ∧ s4 = ':' ∧ s5 = ':' ∧
        p1 = '+' ∧ z1 = '0' ∧ z2 = '5' ∧ zc = ':' ∧ z3 = '3' ∧ z4 = '0' then
      some ⟨val4 y1 y2 y3 y4, val2 mo1 mo2, val2 d1 d2, val2 h1 h2, val2 mi1 mi2,
        val2 se1 se2⟩
    else none
  | _ => none

theorem parseTs_now_ts (t : DateTime) (h : t.WF) : parseTs (now_ts t) = some t := by
  obtain ⟨hy, hmo, hd, hh, hmi, hs⟩ := h
  have dig : ∀ n : Nat, (digitChar (n % 10)).isDigit = true :=
    fun n => digitChar_isDigit _ (Nat.mod_lt _ (by omega))
  show (if _ then _ else _) = some t
  rw [if_pos]
  · simp only [val4, val2, Option.some.injEq]
    have cv : ∀ n : Nat, charVal (digitChar (n % 10)) = n % 10 :=
      fun n => charVal_digitChar _ (Nat.mod_lt _ (by omega))
    simp only [cv]
    obtain ⟨y, mo, d, hh', mi, s⟩ := t
    simp only at hy hmo hd hh hmi hs ⊢
    congr 1 <;> omega
  · refine ⟨dig _, dig _, dig _, dig _, dig _, dig _, dig _, dig _, dig _, dig _, dig _,
      dig _, dig _, dig _, rfl, rfl, rfl, rfl, rfl, rfl, rfl, rfl, rfl, rfl⟩

theorem parseTs_tsStrPandas (t : DateTime) (h : t.WF) : parseTs (tsStrPandas t) = some t := by
  obtain ⟨hy, hmo, hd, hh, hmi, hs⟩ := h
  have dig : ∀ n : Nat, (digitChar (n % 10)).isDigit = true :=
    fun n => digitChar_isDigit _ (Nat.mod_lt _ (by omega))
  show (if _ then _ else _) = some t
  rw [if_pos]
  · simp only [val4, val2, Option.some.injEq]
    have cv : ∀ n : Nat, charVal (digitChar (n % 10)) = n % 10 :=
      fun n => charVal_digitChar _ (Nat.mod_lt _ (by omega))
    simp only [cv]
    obtain ⟨y, mo, d, hh', mi, s⟩ := t
    simp only at hy hmo hd hh hmi hs ⊢
    congr 1 <;> omega
  · refine ⟨dig _, dig _, dig _, dig _, dig _, dig _, dig _, dig _, dig _, dig _, dig _,
      dig _, dig _, dig _, rfl, rfl, rfl, rfl, rfl, rfl, rfl, rfl, rfl, rfl, rfl⟩

theorem now_ts_ne_empty (t : DateTime) : now_ts t ≠ "" := by
  intro h
  have : (now_ts t).toList = ("" : String).toList := by rw [h]
  simp [now_ts, toList_mk] at this

theorem tsStrPandas_ne_empty (t : DateTime) : tsStrPandas t ≠ "" := by
  intro h
  have : (tsStrPandas t).toList = ("" : String).toList := by rw [h]
  simp [tsStrPandas, toList_mk] at this

/-- Match the regex fragment `\d+\.\d+` (with greedy digit runs) at the head
of the input, returning the matched value and the remaining input. -/
def matchNumCore (l : List Char) : Option (PyFloat × List Char) :=
  let d1 := l.takeWhile Char.isDigit
  let r1 := l.dropWhile Char.isDigit
  if d1 = [] then none
  else
    match r1 with
    | [] => none
    | c :: r2 =>
      if c = '.' then
        let d2 := r2.takeWhile Char.isDigit
        if d2 = [] then none
        else
          some (⟨(digitsVal d1 * 10 ^ d2.length + digitsVal d2 : Nat), d2.length⟩,
            r2.dropWhile Char.isDigit)
      else none

/-- Match the regex fragment `-?\d+\.\d+` at the head of the input.  The
pattern is deterministic: each `\d+` is followed by a non-digit, so greedy
matching never needs to backtrack. -/
def matchNum (l : List Char) : Option (PyFloat × List Char) :=
  match l with
  | [] => none
  | c :: r =>
    if c = '-' then (matchNumCore r).map (fun p => (⟨-p.1.num, p.1.exp⟩, p.2))
    else matchNumCore l

/-- Match `(-?\d+\.\d+),(-?\d+\.\d+)` at the head of the input, returning the
two captured coordinates. -/
def matchPair (l : List Char) : Option (PyFloat × PyFloat) :=
  match matchNum l with
  | none => none
  | some (f1, r) =>
    match r with
    | [] => none
    | c :: r2 =>
      if c = ',' then
        match matchNum r2 with
        | none => none
        | some (f2, _) => some (f1, f2)
      else none

/-- `re.search` for the pattern `@(-?\d+\.\d+),(-?\d+\.\d+)`: leftmost
position whose `@` is followed by a coordinate pair. -/
def searchAt : List Char → Option (PyFloat × PyFloat)
  | [] => none
  | c :: rest =>
    if c = '@' then
      match matchPair rest with
      | some p => some p
      | none => searchAt rest
    else searchAt rest

/-- `re.search` for the pattern `[?&]q=(-?\d+\.\d+),(-?\d+\.\d+)`. -/
def searchQ : List Char → Option (PyFloat × PyFloat)
  | [] => none
  | c :: rest =>
    if c = '?' ∨ c = '&' then
      match rest with
      | c1 :: c2 :: l =>
        if c1 = 'q' ∧ c2 = '=' then
          match matchPair l with
          | some p => some p
          | none => searchQ rest
        else searchQ rest
      | _ => searchQ rest
    else searchQ rest

/-- Model of `extract_lat_lon_from_url` (src/app.py lines 132-142): empty
input yields no coordinates; otherwise the `@` pattern is tried first, then
the `q=` pattern; no match yields no coordinates.  The function is total —
malformed input cannot raise. -/
def extract_lat_lon_from_url (url : String) : Option (PyFloat × PyFloat) :=
  if url = "" then none
  else
    match searchAt url.toList with
    | some p => some p
    | none =>
      match searchQ url.toList with
      | some p => some p
      | none => none

theorem matchNumCore_exp (l : List Char) (f : PyFloat) (r : List Char)
    (h : matchNumCore l = some (f, r)) : 1 ≤ f.exp := by
  unfold matchNumCore at h
  dsimp only at h
  split at h
  · exact absurd h (by simp)
  · split at h
    · exact absurd h (by simp)
    · split at h
      · split at h
        · exact absurd h (by simp)
        · rename_i hd2
          simp only [Option.some.injEq, Prod.mk.injEq] at h
          obtain ⟨hf, _⟩ := h
          rw [← hf]
          simp only []
          rcases hl : List.takeWhile Char.isDigit _ with _ | ⟨c, cs⟩
          · rw [hl] at hd2
            exact absurd rfl hd2
          · simp
      · exact absurd h (by simp)

theorem matchNum_exp (l : List Char) (f : PyFloat) (r : List Char)
    (h : matchNum l = some (f, r)) : 1 ≤ f.exp := by
  unfold matchNum at h
  split at h
  · exact absurd h (by simp)
  · split at h
    · rcases hc : matchNumCore _ with _ | ⟨g, r2⟩ <;> rw [hc] at h
      · exact absurd h (by simp)
      · simp only [Option.map_some', Option.some.injEq, Prod.mk.injEq] at h
        obtain ⟨hf, _⟩ := h
        have := matchNumCore_exp _ _ _ hc
        rw [← hf]
        exact this
    · exact matchNumCore_exp _ _ _ h

theorem matchPair_exp (l : List Char) (p : PyFloat × PyFloat)
    (h : matchPair l = some p) : 1 ≤ p.1.exp ∧ 1 ≤ p.2.exp := by
  unfold matchPair at h
  rcases h1 : matchNum l with _ | ⟨f1, r⟩ <;> rw [h1] at h
  · exact absurd h (by simp)
  · rcases r with _ | ⟨c, r2⟩
    · exact absurd h (by simp)
    · simp only at h
      split at h
      · rcases h2 : matchNum r2 with _ | ⟨f2, r3⟩ <;> rw [h2] at h
        · exact absurd h (by simp)
        · simp only [Option.some.injEq] at h
          rw [← h]
          exact ⟨matchNum_exp _ _ _ h1, matchNum_exp _ _ _ h2⟩
      · exact absurd h (by simp)

theorem searchAt_exp (l : List Char) (p : PyFloat × PyFloat)
    (h : searchAt l = some p) : 1 ≤ p.1.exp ∧ 1 ≤ p.2.exp := by
  induction l with
  | nil => exact absurd h (by simp [searchAt])
  | cons c rest ih =>
    unfold searchAt at h
    split at h
    · rcases hm : matchPair rest with _ | q <;> rw [hm] at h
      · exact ih h
      · simp only [Option.some.injEq] at h
        rw [← h]
        exact matchPair_exp _ _ hm
    · exact ih h

theorem searchQ_exp (l : List Char) (p : PyFloat × PyFloat)
    (h : searchQ l = some p) : 1 ≤ p.1.exp ∧ 1 ≤ p.2.exp := by
  induction l with
  | nil => exact absurd h (by simp [searchQ])
  | cons c rest ih =>
    unfold searchQ at h
    split at h
    · rcases rest with _ | ⟨c1, rest2⟩
      · exact ih h
      · rcases rest2 with _ | ⟨c2, l2⟩
        · exact ih h
        · simp only at h
          split at h
          · rcases hm : matchPair l2 with _ | q <;> rw [hm] at h
            · exact ih h
            · simp only [Option.some.injEq] at h
              rw [← h]
              exact matchPair_exp _ _ hm
          · exact ih h
    · exact ih h

/-- Model of `generate_id` (src/app.py lines 159-162): the last five
characters of the booking id (or the whole id when shorter), behind the fixed
`BD-` tag. -/
def generate_id (booking_id : String) : String :=
  let suffix :=
    if 5 ≤ booking_id.length then
      String.mk (booking_id.toList.drop (booking_id.toList.length - 5))
    else booking_id
  "BD-" ++ suffix

/-- Model of Python `str.strip()`: remove leading and trailing whitespace. -/
def pyStrip (s : String) : String :=
  String.mk (((s.toList.dropWhile Char.isWhitespace).reverse.dropWhile
    Char.isWhitespace).reverse)

/-- Model of `ensure_float` (src/app.py lines 126-130): `float(x)` with any
failure mapped to `None`. -/
def ensure_float (s : String) : Option PyFloat := pyFloat s

/-- The status choices offered by the manage tab (src/app.py line 346). -/
def allowed_status : List String := ["Open", "In Progress", "Resolved", "Cancelled"]

/-- The priority choices offered by the manage tab (src/app.py line 355). -/
def allowed_priority : List String := ["Low", "Medium", "High", "Critical"]

/-- Model of the manage tab's status fallback (src/app.py lines 347-350): a
stored status outside the allowed set is replaced by `Open` before the select
box is built. -/
def statusChoice (s : String) : String := if s ∈ allowed_status then s else "Open"

/-- Model of the manage tab's priority fallback (src/app.py lines 355-358): a
stored priority outside the allowed set is replaced by `Medium`. -/
def priorityChoice (p : String) : String := if p ∈ allowed_priority then p else "Medium"

/-- One row of the `breakdowns` worksheet, in the fixed column schema of
`HEADERS` (src/app.py lines 93-99).  Every cell of the sheet is a string. -/
structure StoredRow where
  id : String
  created_at : String
  last_updated : String
  booking_id : String
  customer_name : String
  customer_mobile : String
  pickup_location : String
  booking_days : String
  issue : String
  vehicle_number : String
  vehicle_model : String
  vehicle_type : String
  customer_location_url : String
  latitude : String
  longitude : String
  priority : String
  status : String
  followup_by : String
  added_by : String
  resolved_by : String
  resolved_at : String
deriving DecidableEq

/-- The raw inputs of the add form (src/app.py lines 211-237).
`booking_days` comes from an integer `number_input` with minimum 0; the other
inputs are free text or select boxes. -/
structure FormInput where
  booking_id : String
  customer_name : String
  customer_mobile : String
  pickup_location : String
  booking_days : Nat
  vehicle_type : String
  vehicle_number : String
  vehicle_model : String
  issue : String
  customer_location_url : String
  latitude : String
  longitude : String
  priority : String
  status : String
  followup_by : String
  added_by_input : String
deriving DecidableEq

/-- Coordinate resolution of the add handler (src/app.py lines 243-249):
explicit fields are parsed first; a missing side is backfilled from the
location URL when one is given. -/
def latlonOf (f : FormInput) : Option PyFloat × Option PyFloat :=
  let lat0 := if f.latitude ≠ "" then ensure_float f.latitude else none
  let lon0 := if f.longitude ≠ "" then ensure_float f.longitude else none
  if (lat0 = none ∨ lon0 = none) ∧ f.customer_location_url ≠ "" then
    match extract_lat_lon_from_url f.customer_location_url with
    | some (a, b) =>
      ((match lat0 with | some x => some x | none => some a),
        (match lon0 with | some x => some x | none => some b))
    | none => (lat0, lon0)
  else (lat0, lon0)

/-- Serialization of an integer cell by `add_record`'s `str(v or "")`
(src/app.py line 145): the falsy value 0 becomes the empty string. -/
def natCell (n : Nat) : String := if n = 0 then "" else natStr n

/-- Serialization of an optional float cell: the record holds `x` or `""`;
`str(v or "")` maps `None` and the falsy value `0.0` to the empty string. -/
def floatOptCell (v : Option PyFloat) : String :=
  match v with
  | none => ""
  | some f => if f.num = 0 then "" else pyFloatStr f

/-- Serialization of a loaded timestamp cell by `update_record`'s
`str(v or "")` (src/app.py line 152): `NaT` is falsy and becomes the empty
string; a timestamp is rendered by pandas `str`. -/
def dtOptCell (v : Option DateTime) : String :=
  match v with
  | none => ""
  | some t => tsStrPandas t

/-- Serialization of a loaded numeric cell by `str(v or "")`: `NaN` is truthy
in Python, so a missing number is written back as the literal `nan`; the
falsy value 0.0 becomes the empty string. -/
def numOptCell (v : Option PyFloat) : String :=
  match v with
  | none => "nan"
  | some f => if f.num = 0 then "" else pyFloatStr f

/-- The record built and appended by the add-form submit handler (src/app.py
lines 242-276), already serialized into its stored-row form by `add_record`
(line 145).  The two `now_ts()` calls land in the same second and are
modelled by one `now`. -/
def addRecordRow (f : FormInput) (user : String) (now : DateTime) : StoredRow :=
  let ll := latlonOf f
  { id := generate_id f.booking_id
    created_at := now_ts now
    last_updated := now_ts now
    booking_id := pyStrip f.booking_id
    customer_name := pyStrip f.customer_name
    customer_mobile := pyStrip f.customer_mobile
    pickup_location := pyStrip f.pickup_location
    booking_days := natCell f.booking_days
    issue := pyStrip f.issue
    vehicle_number := pyStrip f.vehicle_number
    vehicle_model := pyStrip f.vehicle_model
    vehicle_type := f.vehicle_type
    customer_location_url := pyStrip f.customer_location_url
    latitude := floatOptCell ll.1
    longitude := floatOptCell ll.2
    priority := f.priority
    status := f.status
    followup_by := pyStrip f.followup_by
    added_by := pyStrip (if user ≠ "" then user else f.added_by_input)
    resolved_by := if f.status = "Resolved" ∧ user ≠ "" then user else ""
    resolved_at := if f.status = "Resolved" then now_ts now else "" }

/-- The add-form submit handler at store level (src/app.py lines 239-278):
reject when a required field is missing, otherwise append exactly one row. -/
def submitAdd (store : List StoredRow) (f : FormInput) (user : String)
    (now : DateTime) : List StoredRow :=
  if f.booking_id = "" ∨ f.customer_mobile = "" ∨ f.issue = "" ∨ f.vehicle_type = ""
  then store
  else store ++ [addRecordRow f user now]

/-- A row of the DataFrame produced by `load_data` (src/app.py lines
105-121): the three timestamp columns are parsed with
`pd.to_datetime(errors="coerce")` and `booking_days` with
`pd.to_numeric(errors="coerce")`; every other column stays a string. -/
structure LoadedRecord where
  id : String
  created_at : Option DateTime
  last_updated : Option DateTime
  booking_id : String
  customer_name : String
  customer_mobile : String
  pickup_location : String
  booking_days : Option PyFloat
  issue : String
  vehicle_number : String
  vehicle_model : String
  vehicle_type : String
  customer_location_url : String
  latitude : String
  longitude : String
  priority : String
  status : String
  followup_by : String
  added_by : String
  resolved_by : String
  resolved_at : Option DateTime
deriving DecidableEq

/-- `load_data` on one stored row. -/
def loadRow (r : StoredRow) : LoadedRecord :=
  { id := r.id
    created_at := parseTs r.created_at
    last_updated := parseTs r.last_updated
    booking_id := r.booking_id
    customer_name := r.customer_name
    customer_mobile := r.customer_mobile
    pickup_location := r.pickup_location
    booking_days := pyFloat r.booking_days
    issue := r.issue
    vehicle_number := r.vehicle_number
    vehicle_model := r.vehicle_model
    vehicle_type := r.vehicle_type
    customer_location_url := r.customer_location_url
    latitude := r.latitude
    longitude := r.longitude
    priority := r.priority
    status := r.status
    followup_by := r.followup_by
    added_by := r.added_by
    resolved_by := r.resolved_by
    resolved_at := parseTs r.resolved_at }

/-- The manage-tab Update handler applied to a loaded record (src/app.py
lines 388-403), composed with `update_record`'s cell serialization
`str(v or "")` (line 152).  Setting status, follow-up and priority; the
resolved fields follow the enter/keep/clear rules of lines 395-402. -/
def updateTransition (r : LoadedRecord) (new_status new_follow new_priority
    resolved_by_input user : String) (now : DateTime) : StoredRow :=
  { id := r.id
    created_at := dtOptCell r.created_at
    last_updated := now_ts now
    booking_id := r.booking_id
    customer_name := r.customer_name
    customer_mobile := r.customer_mobile
    pickup_location := r.pickup_location
    booking_days := numOptCell r.booking_days
    issue := r.issue
    vehicle_number := r.vehicle_number
    vehicle_model := r.vehicle_model
    vehicle_type := r.vehicle_type
    customer_location_url := r.customer_location_url
    latitude := r.latitude
    longitude := r.longitude
    priority := new_priority
    status := new_status
    followup_by := new_follow
    added_by := r.added_by
    resolved_by :=
      if new_status = "Resolved" then
        (if resolved_by_input ≠ "" then resolved_by_input
         else if user ≠ "" then user else r.resolved_by)
      else ""
    resolved_at :=
      if new_status = "Resolved" then
        (match r.resolved_at with
         | some t => tsStrPandas t
         | none => now_ts now)
      else "" }

/-- The Mark-as-Resolved button applied to a loaded record (src/app.py lines
318-322), composed with `update_record`'s cell serialization. -/
def markResolvedOut (r : LoadedRecord) (resolved_by_input : String)
    (now : DateTime) : StoredRow :=
  { id := r.id
    created_at := dtOptCell r.created_at
    last_updated := now_ts now
    booking_id := r.booking_id
    customer_name := r.customer_name
    customer_mobile := r.customer_mobile
    pickup_location := r.pickup_location
    booking_days := numOptCell r.booking_days
    issue := r.issue
    vehicle_number := r.vehicle_number
    vehicle_model := r.vehicle_model
    vehicle_type := r.vehicle_type
    customer_location_url := r.customer_location_url
    latitude := r.latitude
    longitude := r.longitude
    priority := r.priority
    status := "Resolved"
    followup_by := r.followup_by
    added_by := r.added_by
    resolved_by := resolved_by_input
    resolved_at := now_ts now }

/-- A sort key that orders `DateTime`s chronologically (fields are compared
most significant first). -/
def dtKey (t : DateTime) : Nat :=
  ((((t.year * 13 + t.month) * 32 + t.day) * 25 + t.hour) * 61 + t.minute) * 61 + t.second

/-- Whether row `a` comes before row `b` in the display order of
`sort_values(by="created_at", ascending=False, na_position="last")`. -/
def rowBefore (a b : LoadedRecord) : Bool :=
  match a.created_at, b.created_at with
  | some x, some y => dtKey y ≤ dtKey x
  | some _, none => true
  | none, some _ => false
  | none, none => true

/-- Insert one row into an already sorted list. -/
def insertRow (x : LoadedRecord) : List LoadedRecord → List LoadedRecord
  | [] => [x]
  | y :: ys => if rowBefore x y then x :: y :: ys else y :: insertRow x ys

/-- Model of the `df_sorted` view (src/app.py line 288): the loaded rows,
most recent `created_at` first, missing dates last. -/
def sortRows (l : List LoadedRecord) : List LoadedRecord := l.foldr insertRow []

/-- The Mark-as-Resolved click at store level (src/app.py lines 288-326): the
button of the card at display position `i` of the sorted view; when the field
is filled it calls `update_record(idx, updated)` with `idx` the *sorted*
position, so the write lands at storage position `i`. -/
def clickResolve (store : List StoredRow) (i : Nat) (resolved_by_input : String)
    (now : DateTime) : List StoredRow :=
  let dfs := sortRows (store.map loadRow)
  match dfs.get? i with
  | none => store
  | some row =>
    if row.status = "Resolved" then store
    else if resolved_by_input = "" then store
    else store.set i (markResolvedOut row resolved_by_input now)

/-- Rows producible by the application's own write paths: the add form, the
manage-tab Update handler (whose status select box only offers the four
allowed values), and the Mark-as-Resolved button (only rendered for
unresolved rows, and only active with a non-empty resolver name). -/
inductive ReachableRow : StoredRow → Prop
  | ofAdd (f : FormInput) (user : String) (now : DateTime) :
      f.booking_id ≠ "" → f.customer_mobile ≠ "" → f.issue ≠ "" → f.vehicle_type ≠ "" →
      ReachableRow (addRecordRow f user now)
  | ofUpdate (sr : StoredRow) (ns nf np rbi user : String) (now : DateTime) :
      ReachableRow sr → ns ∈ allowed_status →
      ReachableRow (updateTransition (loadRow sr) ns nf np rbi user now)
  | ofResolve (sr : StoredRow) (inp : String) (now : DateTime) :
      ReachableRow sr → inp ≠ "" → (loadRow sr).status ≠ "Resolved" →
      ReachableRow (markResolvedOut (loadRow sr) inp now)

/-- A concrete loaded record used to instantiate hypothesis-bearing theorems. -/
def sampleLoaded : LoadedRecord :=
  ⟨"BD-98877", some ⟨2024, 1, 2, 3, 4, 5⟩, some ⟨2024, 1, 2, 3, 4, 5⟩, "RNT998877",
    "Alice", "9999", "Depot", some ⟨3, 0⟩, "Flat tyre", "KA01", "Activa", "Bike",
    "", "", "", "High", "Resolved", "Bob", "Carol", "Dave", some ⟨2024, 1, 3, 4, 5, 6⟩⟩

/-- A concrete valid form input used to instantiate hypothesis-bearing
theorems. -/
def sampleForm : FormInput :=
  ⟨"RNT998877", "Alice", "9999", "Depot", 3, "Bike", "KA01", "Activa", "Flat tyre",
    "", "", "", "Medium", "Open", "Bob", "Carol"⟩

/-- C5: transitioning a record away from `Resolved` (to any other status)
leaves both resolver name and resolution timestamp empty, unconditionally. -/
theorem c5_unresolve_clears_fields (r : LoadedRecord) (ns nf np rbi user : String)
    (now : DateTime) (_hres : r.status = "Resolved") (hns : ns ≠ "Resolved") :
    (updateTransition r ns nf np rbi user now).resolved_by = "" ∧
    (updateTransition r ns nf np rbi user now).resolved_at = "" := by
  unfold updateTransition
  simp [hns]

theorem c5_unresolve_clears_fields_witness :
    (updateTransition sampleLoaded "Cancelled" "Bob" "Low" "Dave" "Erin"
        ⟨2024, 2, 2, 2, 2, 2⟩).resolved_by = "" ∧
    (updateTransition sampleLoaded "Cancelled" "Bob" "Low" "Dave" "Erin"
        ⟨2024, 2, 2, 2, 2, 2⟩).resolved_at = "" :=
  c5_unresolve_clears_fields sampleLoaded "Cancelled" "Bob" "Low" "Dave" "Erin"
    ⟨2024, 2, 2, 2, 2, 2⟩ (by decide) (by decide)

/-- C6: the add handler appends a row if and only if the four required fields
(booking id, customer mobile, issue, vehicle type) are all non-empty; when
one is missing the store is left unchanged, and when all are present exactly
the constructed record is appended. -/
theorem c6_add_validation (store : List StoredRow) (f : FormInput) (user : String)
    (now : DateTime) :
    ((submitAdd store f user now).length = store.length + 1 ↔
      (f.booking_id ≠ "" ∧ f.customer_mobile ≠ "" ∧ f.issue ≠ "" ∧ f.vehicle_type ≠ "")) ∧
    ((f.booking_id = "" ∨ f.customer_mobile = "" ∨ f.issue = "" ∨ f.vehicle_type = "") →
      submitAdd store f user now = store) ∧
    ((f.booking_id ≠ "" ∧ f.customer_mobile ≠ "" ∧ f.issue ≠ "" ∧ f.vehicle_type ≠ "") →
      submitAdd store f user now = store ++ [addRecordRow f user now]) := by
  unfold submitAdd
  by_cases h : f.booking_id = "" ∨ f.customer_mobile = "" ∨ f.issue = "" ∨
      f.vehicle_type = ""
  · rw [if_pos h]
    refine ⟨⟨fun hlen => absurd hlen (by omega), fun hall => absurd h (by tauto)⟩,
      fun _ => rfl, fun hall => absurd h (by tauto)⟩
  · rw [if_neg h]
    push_neg at h
    exact ⟨⟨fun _ => h, fun _ => by simp⟩, fun hor => absurd hor (by tauto), fun _ => rfl⟩

theorem c6_add_validation_witness :
    submitAdd [] sampleForm "Carol" ⟨2024, 1, 2, 3, 4, 5⟩
      = [] ++ [addRecordRow sampleForm "Carol" ⟨2024, 1, 2, 3, 4, 5⟩] :=
  (c6_add_validation [] sampleForm "Carol" ⟨2024, 1, 2, 3, 4, 5⟩).2.2
    ⟨by decide, by decide, by decide, by decide⟩

/-- C7: the derived record identifier is the fixed `BD-` tag followed by the
last five characters of the booking identifier when it has at least five
characters, and by the whole booking identifier otherwise; in particular
`RNT998877` gives `BD-98877` and `B12` gives `BD-B12`. -/
theorem c7_generate_id_spec :
    (∀ s : String, 5 ≤ s.length →
      generate_id s = "BD-" ++ String.mk ((s.toList.reverse.take 5).reverse)) ∧
    (∀ s : String, s.length < 5 → generate_id s = "BD-" ++ s) ∧
    generate_id "RNT998877" = "BD-98877" ∧ generate_id "B12" = "BD-B12" := by
  refine ⟨?_, ?_, by decide, by decide⟩
  · intro s h
    unfold generate_id
    dsimp only
    rw [if_pos h]
    have : s.toList.drop (s.toList.length - 5) = s.toList.rtake 5 := rfl
    rw [this, List.rtake_eq_reverse_take_reverse]
  · intro s h
    unfold generate_id
    dsimp only
    rw [if_neg (by omega)]

theorem c7_generate_id_spec_witness :
    generate_id "RNT998877"
        = "BD-" ++ String.mk ((("RNT998877" : String).toList.reverse.take 5).reverse) ∧
    generate_id "B12" = "BD-" ++ "B12" :=
  ⟨c7_generate_id_spec.1 "RNT998877" (by decide), c7_generate_id_spec.2.1 "B12" (by decide)⟩

/-- C9: the manage tab's read path coerces a stored status outside the four
allowed values to `Open` and a stored priority outside the four allowed
values to `Medium`, and leaves allowed values unchanged; the coercions are
total functions, so no stored value can make the read path fail. -/
theorem c9_enum_coercion :
    (∀ s : String, s ∉ allowed_status → statusChoice s = "Open") ∧
    (∀ p : String, p ∉ allowed_priority → priorityChoice p = "Medium") ∧
    (∀ s ∈ allowed_status, statusChoice s = s) ∧
    (∀ p ∈ allowed_priority, priorityChoice p = p) := by
  refine ⟨?_, ?_, ?_, ?_⟩ <;> intro x hx <;> simp [statusChoice, priorityChoice, hx]

theorem c9_enum_coercion_witness :
    statusChoice "Unknown" = "Open" ∧ priorityChoice "Garbage" = "Medium" :=
  ⟨c9_enum_coercion.1 "Unknown" (by decide), c9_enum_coercion.2.1 "Garbage" (by decide)⟩

/-- C8: the coordinate extractor is a total function on URL strings; the `@`
pattern is tried before the `q=` pattern and the first match decides the
result; with no match (including the empty string) it yields no coordinates;
on the three specification examples it returns (12.34, 77.12), (10.0, 20.5)
and nothing respectively. -/
theorem c8_extract_lat_lon_spec :
    (extract_lat_lon_from_url "https://maps.google.com/@12.34,77.12,15z"
        = some (⟨1234, 2⟩, ⟨7712, 2⟩) ∧
      (PyFloat.mk 1234 2).toRat = (12.34 : ℚ) ∧ (PyFloat.mk 7712 2).toRat = (77.12 : ℚ)) ∧
    (extract_lat_lon_from_url "https://maps.google.com/?q=10.0,20.5"
        = some (⟨100, 1⟩, ⟨205, 1⟩) ∧
      (PyFloat.mk 100 1).toRat = (10.0 : ℚ) ∧ (PyFloat.mk 205 1).toRat = (20.5 : ℚ)) ∧
    extract_lat_lon_from_url "https://example.com/no-coords" = none ∧
    extract_lat_lon_from_url "" = none ∧
    (∀ url p, searchAt url.toList = some p → extract_lat_lon_from_url url = some p) ∧
    (∀ url p, searchAt url.toList = none → searchQ url.toList = some p →
      extract_lat_lon_from_url url = some p) ∧
    (∀ url, searchAt url.toList = none → searchQ url.toList = none →
      extract_lat_lon_from_url url = none) := by
  refine ⟨⟨by decide, by norm_num [PyFloat.toRat], by norm_num [PyFloat.toRat]⟩,
    ⟨by decide, by norm_num [PyFloat.toRat], by norm_num [PyFloat.toRat]⟩,
    by decide, by decide, ?_, ?_, ?_⟩
  · intro url p h
    have hne : url ≠ "" := by
      intro he
      subst he
      rw [show ("" : String).toList = [] from rfl] at h
      exact absurd h (by simp [searchAt])
    unfold extract_lat_lon_from_url
    rw [if_neg hne, h]
  · intro url p h1 h2
    have hne : url ≠ "" := by
      intro he
      subst he
      rw [show ("" : String).toList = [] from rfl] at h2
      exact absurd h2 (by simp [searchQ])
    unfold extract_lat_lon_from_url
    rw [if_neg hne, h1, h2]
  · intro url h1 h2
    unfold extract_lat_lon_from_url
    by_cases hne : url = ""
    · rw [if_pos hne]
    · rw [if_neg hne, h1, h2]

theorem c8_extract_lat_lon_spec_witness :
    extract_lat_lon_from_url "x@1.5,2.5?q=3.5,4.5" = some (⟨15, 1⟩, ⟨25, 1⟩) :=
  c8_extract_lat_lon_spec.2.2.2.2.1 "x@1.5,2.5?q=3.5,4.5" (⟨15, 1⟩, ⟨25, 1⟩) (by decide)

/-- C10: both recognized patterns require a decimal point with digits on each
side, so a URL whose coordinates are bare integers yields no coordinates, and
every extracted coordinate has at least one fractional digit. -/
theorem c10_integer_coords_rejected :
    extract_lat_lon_from_url "https://maps.google.com/@12,77" = none ∧
    extract_lat_lon_from_url "https://maps.google.com/?q=10,20" = none ∧
    (∀ url p, extract_lat_lon_from_url url = some p → 1 ≤ p.1.exp ∧ 1 ≤ p.2.exp) := by
  refine ⟨by decide, by decide, ?_⟩
  intro url p h
  unfold extract_lat_lon_from_url at h
  split at h
  · exact absurd h (by simp)
  · rcases hA : searchAt url.toList with _ | q <;> rw [hA] at h
    · rcases hQ : searchQ url.toList with _ | q2 <;> rw [hQ] at h
      · exact absurd h (by simp)
      · simp only [Option.some.injEq] at h
        subst h
        exact searchQ_exp _ _ hQ
    · simp only [Option.some.injEq] at h
      subst h
      exact searchAt_exp _ _ hA

theorem c10_integer_coords_rejected_witness :
    1 ≤ (PyFloat.mk 15 1).exp ∧ 1 ≤ (PyFloat.mk 25 1).exp :=
  c10_integer_coords_rejected.2.2 "x@1.5,2.5" (⟨15, 1⟩, ⟨25, 1⟩) (by decide)

/-- C1 counterexample: a record created through the add form with status
`Resolved` while the session's user name is empty has an empty resolver name
(src/app.py line 273), so `status = Resolved` does not imply a non-empty
resolver name, and the resolver is not populated from the current actor. -/
theorem c1_counterexample :
    ({ sampleForm with status := "Resolved" } : FormInput).booking_id ≠ "" ∧
    ({ sampleForm with status := "Resolved" } : FormInput).customer_mobile ≠ "" ∧
    ({ sampleForm with status := "Resolved" } : FormInput).issue ≠ "" ∧
    ({ sampleForm with status := "Resolved" } : FormInput).vehicle_type ≠ "" ∧
    (addRecordRow { sampleForm with status := "Resolved" } ""
        ⟨2024, 1, 2, 3, 4, 5⟩).status = "Resolved" ∧
    (addRecordRow { sampleForm with status := "Resolved" } ""
        ⟨2024, 1, 2, 3, 4, 5⟩).resolved_by = "" := by decide

/-- C1 (amended): on every row reachable through the add and transition
operations, status `Resolved` implies a non-empty resolution timestamp; a
record created with status `Resolved` gets its resolution timestamp from the
current time, and its resolver name from the current actor only when the
actor's name is non-empty (it is left empty otherwise). -/
theorem c1_amended_resolved_at_invariant :
    (∀ sr : StoredRow, ReachableRow sr → sr.status = "Resolved" → sr.resolved_at ≠ "") ∧
    (∀ (f : FormInput) (user : String) (now : DateTime), f.status = "Resolved" →
      (addRecordRow f user now).resolved_at = now_ts now ∧
      (user ≠ "" → (addRecordRow f user now).resolved_by = user)) := by
  constructor
  · intro sr hr
    induction hr with
    | ofAdd f user now h1 h2 h3 h4 =>
      intro hst
      have hfs : f.status = "Resolved" := hst
      show (if f.status = "Resolved" then now_ts now else "") ≠ ""
      rw [if_pos hfs]
      exact now_ts_ne_empty now
    | ofUpdate sr ns nf np rbi user now _hr hns _ih =>
      intro hst
      have hns' : ns = "Resolved" := hst
      show (if ns = "Resolved" then
          (match (loadRow sr).resolved_at with
           | some t => tsStrPandas t
           | none => now_ts now)
        else "") ≠ ""
      rw [if_pos hns']
      cases h : (loadRow sr).resolved_at with
      | none => exact now_ts_ne_empty now
      | some t => exact tsStrPandas_ne_empty t
    | ofResolve sr inp now _hr hinp hnr _ih =>
      intro _hst
      show now_ts now ≠ ""
      exact now_ts_ne_empty now
  · intro f user now hst
    constructor
    · show (if f.status = "Resolved" then now_ts now else "") = now_ts now
      rw [if_pos hst]
    · intro hu
      show (if f.status = "Resolved" ∧ user ≠ "" then user else "") = user
      rw [if_pos ⟨hst, hu⟩]

theorem c1_amended_witness :
    (addRecordRow { sampleForm with status := "Resolved" } "Carol"
        ⟨2024, 1, 2, 3, 4, 5⟩).resolved_at ≠ "" ∧
    (addRecordRow { sampleForm with status := "Resolved" } "Carol"
        ⟨2024, 1, 2, 3, 4, 5⟩).resolved_by = "Carol" :=
  ⟨c1_amended_resolved_at_invariant.1 _
      (ReachableRow.ofAdd { sampleForm with status := "Resolved" } "Carol"
        ⟨2024, 1, 2, 3, 4, 5⟩ (by decide) (by decide) (by decide) (by decide))
      (by decide),
    (c1_amended_resolved_at_invariant.2 { sampleForm with status := "Resolved" } "Carol"
        ⟨2024, 1, 2, 3, 4, 5⟩ (by decide)).2 (by decide)⟩

/-- C4: re-saving with target status `Resolved` preserves an already present
resolution timestamp (src/app.py lines 395-398), and applying the transition
twice with status `Resolved` yields the same resolution timestamp as applying
it once. -/
theorem c4_resolution_idempotent (r : LoadedRecord)
    (nf np rbi user nf2 np2 rbi2 user2 : String) (now now2 : DateTime)
    (hwfn : now.WF) (hwf : ∀ t, r.resolved_at = some t → t.WF) :
    (∀ t, r.resolved_at = some t →
      parseTs (updateTransition r "Resolved" nf np rbi user now).resolved_at = some t) ∧
    parseTs (updateTransition (loadRow (updateTransition r "Resolved" nf np rbi user now))
        "Resolved" nf2 np2 rbi2 user2 now2).resolved_at
      = parseTs (updateTransition r "Resolved" nf np rbi user now).resolved_at := by
  have hout1 : (updateTransition r "Resolved" nf np rbi user now).resolved_at
      = (match r.resolved_at with
         | some t => tsStrPandas t
         | none => now_ts now) := by
    unfold updateTransition
    dsimp only
    rw [if_pos rfl]
  constructor
  · intro t ht
    rw [hout1, ht]
    exact parseTs_tsStrPandas t (hwf t ht)
  · have hout2 : (updateTransition (loadRow (updateTransition r "Resolved" nf np rbi
        user now)) "Resolved" nf2 np2 rbi2 user2 now2).resolved_at
        = (match parseTs (updateTransition r "Resolved" nf np rbi user now).resolved_at
            with
           | some t => tsStrPandas t
           | none => now_ts now2) := by
      unfold updateTransition loadRow
      dsimp only
      rw [if_pos rfl]
    rw [hout2, hout1]
    cases hra : r.resolved_at with
    | none =>
      rw [parseTs_now_ts now hwfn]
      exact parseTs_tsStrPandas now hwfn
    | some t =>
      rw [parseTs_tsStrPandas t (hwf t hra)]
      exact parseTs_tsStrPandas t (hwf t hra)

theorem c4_resolution_idempotent_witness :
    parseTs (updateTransition sampleLoaded "Resolved" "Bob" "High" "Dave" "Erin"
        ⟨2024, 2, 2, 2, 2, 2⟩).resolved_at = some ⟨2024, 1, 3, 4, 5, 6⟩ :=
  (c4_resolution_idempotent sampleLoaded "Bob" "High" "Dave" "Erin" "Bob" "High" "Dave"
      "Erin" ⟨2024, 2, 2, 2, 2, 2⟩ ⟨2024, 3, 3, 3, 3, 3⟩ (by decide)
      (fun t ht => by
        rw [show sampleLoaded.resolved_at = some ⟨2024, 1, 3, 4, 5, 6⟩ from rfl] at ht
        obtain rfl := Option.some.inj ht
        decide)).1
    ⟨2024, 1, 3, 4, 5, 6⟩ rfl

/-- An older stored row (created January 1st). -/
def rowA : StoredRow :=
  ⟨"BD-A", "2024-01-01 10:00:00+0530", "2024-01-01 10:00:00+0530", "A", "Ann", "1",
    "X", "", "IssueA", "V1", "M1", "Bike", "", "", "", "Low", "Open", "", "Ann", "", ""⟩

/-- A newer stored row (created February 1st), stored after `rowA`. -/
def rowB : StoredRow :=
  ⟨"BD-B", "2024-02-01 10:00:00+0530", "2024-02-01 10:00:00+0530", "B", "Ben", "2",
    "Y", "", "IssueB", "V2", "M2", "Car", "", "", "", "High", "Open", "", "Ben", "", ""⟩

/-- C2: the Mark-as-Resolved button passes the record's position in the
sorted display view to `update_record`, which writes by storage position
(src/app.py lines 288-326).  With the store `[rowA, rowB]` (`rowB` newer, so
shown first), resolving the `BD-B` card overwrites storage slot 0 — the row
whose identifier is `BD-A` — while the requested row `BD-B` at slot 1 is left
unchanged and still `Open`, and the `BD-A` record is destroyed. -/
theorem c2_wrong_row_overwritten :
    rowA.id = "BD-A" ∧ rowB.id = "BD-B" ∧ rowB.status = "Open" ∧
    ((clickResolve [rowA, rowB] 0 "Alice" ⟨2024, 3, 1, 12, 0, 0⟩).get? 0).map
        StoredRow.id = some "BD-B" ∧
    ((clickResolve [rowA, rowB] 0 "Alice" ⟨2024, 3, 1, 12, 0, 0⟩).get? 0).map
        StoredRow.status = some "Resolved" ∧
    (clickResolve [rowA, rowB] 0 "Alice" ⟨2024, 3, 1, 12, 0, 0⟩).get? 1 = some rowB ∧
    (∀ sr ∈ clickResolve [rowA, rowB] 0 "Alice" ⟨2024, 3, 1, 12, 0, 0⟩,
      sr.id ≠ "BD-A") := by decide

theorem mk_ne_empty (l : List Char) (h : l ≠ []) : String.mk l ≠ "" := by
  intro he
  apply h
  have hd : (String.mk l).data = ("" : String).data := by rw [he]
  exact hd

theorem pyFloatStr_ne_empty (g : PyFloat) : pyFloatStr g ≠ "" := by
  unfold pyFloatStr
  dsimp only
  apply mk_ne_empty
  intro h
  exact absurd (List.append_eq_nil.mp h).2 (by simp)

theorem pyFloat_natStr (n : Nat) : pyFloat (natStr n) = some ⟨(n : Int), 0⟩ := by
  obtain ⟨d, rest, hhead, hd⟩ := natChars_head n
  unfold natStr
  rw [hhead, pyFloat_digit_cons d hd, ← hhead]
  unfold pyFloatCore
  dsimp only
  rw [takeWhile_all _ (natChars_all_digit n), dropWhile_all _ (natChars_all_digit n)]
  dsimp only
  rw [if_neg (natChars_ne_nil n), digitsVal_natChars]

/-- Reading the latitude or longitude cell back as a number, as the manage
tab does (src/app.py lines 367-373): an empty cell is no coordinate, any
other cell goes through `float` with failures mapped to `None`. -/
def pyFloatValOpt (s : String) : Option ℚ :=
  if s = "" then none else (pyFloat s).map PyFloat.toRat

/-- An added record as it comes back from the store after the cache is
cleared: the write appends the serialized row (src/app.py line 145, 276-278)
and the next `load_data` re-reads and normalizes it. -/
def readBack (f : FormInput) (user : String) (now : DateTime) : LoadedRecord :=
  loadRow (addRecordRow f user now)

/-- C3 counterexample: a valid input record with `booking_days = 0` does not
round trip — `add_record` serializes cells with `str(v or "")` (src/app.py
line 145), so the falsy value 0 is stored as the empty cell and reads back as
missing, not as 0. -/
theorem c3_counterexample_booking_days_zero :
    ({ sampleForm with booking_days := 0 } : FormInput).booking_id ≠ "" ∧
    ({ sampleForm with booking_days := 0 } : FormInput).customer_mobile ≠ "" ∧
    ({ sampleForm with booking_days := 0 } : FormInput).issue ≠ "" ∧
    ({ sampleForm with booking_days := 0 } : FormInput).vehicle_type ≠ "" ∧
    (readBack { sampleForm with booking_days := 0 } "Carol"
        ⟨2024, 1, 2, 3, 4, 5⟩).booking_days = none ∧
    (readBack { sampleForm with booking_days := 0 } "Carol"
          ⟨2024, 1, 2, 3, 4, 5⟩).booking_days.map PyFloat.toRat
      ≠ some ((({ sampleForm with booking_days := 0 } : FormInput).booking_days : ℚ)) := by
  decide

/-- C3 (amended): a valid input record added and read back after cache
invalidation matches the input on every field except the machine-generated
timestamps — which are non-empty and parse back to the creation time —
provided every serialized value is truthy: a zero `booking_days` or a zero
coordinate is stored as an empty cell and reads back as missing. -/
theorem c3_amended_roundtrip (f : FormInput) (user : String) (now : DateTime)
    (_hv1 : f.booking_id ≠ "") (_hv2 : f.customer_mobile ≠ "") (_hv3 : f.issue ≠ "")
    (_hv4 : f.vehicle_type ≠ "") (hbd : f.booking_days ≠ 0) (hwf : now.WF)
    (hlat : ∀ g, (latlonOf f).1 = some g → g.num ≠ 0)
    (hlon : ∀ g, (latlonOf f).2 = some g → g.num ≠ 0) :
    (readBack f user now).booking_days.map PyFloat.toRat = some (f.booking_days : ℚ) ∧
    pyFloatValOpt (readBack f user now).latitude = ((latlonOf f).1).map PyFloat.toRat ∧
    pyFloatValOpt (readBack f user now).longitude = ((latlonOf f).2).map PyFloat.toRat ∧
    (addRecordRow f user now).created_at ≠ "" ∧
    (addRecordRow f user now).last_updated ≠ "" ∧
    (readBack f user now).created_at = some now ∧
    (readBack f user now).last_updated = some now ∧
    (f.status = "Resolved" →
      (addRecordRow f user now).resolved_at ≠ "" ∧
      (readBack f user now).resolved_at = some now) ∧
    (f.status ≠ "Resolved" → (readBack f user now).resolved_at = none) ∧
    (readBack f user now).id = generate_id f.booking_id ∧
    (readBack f user now).booking_id = pyStrip f.booking_id ∧
    (readBack f user now).customer_name = pyStrip f.customer_name ∧
    (readBack f user now).customer_mobile = pyStrip f.customer_mobile ∧
    (readBack f user now).pickup_location = pyStrip f.pickup_location ∧
    (readBack f user now).issue = pyStrip f.issue ∧
    (readBack f user now).vehicle_number = pyStrip f.vehicle_number ∧
    (readBack f user now).vehicle_model = pyStrip f.vehicle_model ∧
    (readBack f user now).vehicle_type = f.vehicle_type ∧
    (readBack f user now).customer_location_url = pyStrip f.customer_location_url ∧
    (readBack f user now).priority = f.priority ∧
    (readBack f user now).status = f.status ∧
    (readBack f user now).followup_by = pyStrip f.followup_by ∧
    (readBack f user now).added_by = pyStrip (if user ≠ "" then user else f.added_by_input) ∧
    (readBack f user now).resolved_by
      = (if f.status = "Resolved" ∧ user ≠ "" then user else "") := by
  refine ⟨?_, ?_, ?_, now_ts_ne_empty now, now_ts_ne_empty now,
    parseTs_now_ts now hwf, parseTs_now_ts now hwf, ?_, ?_,
    rfl, rfl, rfl, rfl, rfl, rfl, rfl, rfl, rfl, rfl, rfl, rfl, rfl, rfl, rfl⟩
  · have h1 : (readBack f user now).booking_days = pyFloat (natStr f.booking_days) := by
      unfold readBack loadRow addRecordRow natCell
      dsimp only
      rw [if_neg hbd]
    rw [h1, pyFloat_natStr]
    simp [PyFloat.toRat]
  · have hl : (readBack f user now).latitude = floatOptCell (latlonOf f).1 := rfl
    rw [hl]
    cases h : (latlonOf f).1 with
    | none => rfl
    | some g =>
      have hg := hlat g h
      have h2 : floatOptCell (some g) = pyFloatStr g := by
        unfold floatOptCell
        dsimp only
        rw [if_neg hg]
      rw [h2, Option.map_some']
      unfold pyFloatValOpt
      rw [if_neg (pyFloatStr_ne_empty g)]
      exact pyFloat_val_pyFloatStr g
  · have hl : (readBack f user now).longitude = floatOptCell (latlonOf f).2 := rfl
    rw [hl]
    cases h : (latlonOf f).2 with
    | none => rfl
    | some g =>
      have hg := hlon g h
      have h2 : floatOptCell (some g) = pyFloatStr g := by
        unfold floatOptCell
        dsimp only
        rw [if_neg hg]
      rw [h2, Option.map_some']
      unfold pyFloatValOpt
      rw [if_neg (pyFloatStr_ne_empty g)]
      exact pyFloat_val_pyFloatStr g
  · intro hres
    constructor
    · show (if f.status = "Resolved" then now_ts now else "") ≠ ""
      rw [if_pos hres]
      exact now_ts_ne_empty now
    · show parseTs (if f.status = "Resolved" then now_ts now else "") = some now
      rw [if_pos hres]
      exact parseTs_now_ts now hwf
  · intro hres
    show parseTs (if f.status = "Resolved" then now_ts now else "") = none
    rw [if_neg hres]
    rfl

theorem c3_amended_roundtrip_witness :
    (readBack sampleForm "Carol" ⟨2024, 1, 2, 3, 4, 5⟩).booking_days.map PyFloat.toRat
      = some ((3 : Nat) : ℚ) :=
  (c3_amended_roundtrip sampleForm "Carol" ⟨2024, 1, 2, 3, 4, 5⟩ (by decide) (by decide)
      (by decide) (by decide) (by decide) (by decide)
      (fun g hg => by
        rw [show (latlonOf sampleForm).1 = none from by decide] at hg
        exact Option.noConfusion hg)
      (fun g hg => by
        rw [show (latlonOf sampleForm).2 = none from by decide] at hg
        exact Option.noConfusion hg)).1
